import Mathlib

/-
  Verification development for the puppeteer-stream streaming bridge
  (src/PuppeteerStream.ts).

  The embedding models:
  - the readiness gate `assertExtensionLoaded` (lines 188-196),
  - the option-defaulting and allocation phases of `getStream` (lines 150-186),
  - the `PuppeteerReadableStream` bridge as a small-step state machine over
    events (connection accepted, data chunk delivered, destroy invoked,
    the awaited onDestroy promise settling), following the constructor
    (lines 203-220) and `destroy` (lines 225-233).

  JavaScript falsiness of optional numeric / string options is modelled by
  `Option` values where `none` plays the role of `undefined`; a falsy check
  such as `!opts.frameSize` becomes `opts.frameSize.getD 0 = 0`, and the
  nullish coalescing `??` becomes `Option.getD`.
-/

namespace PuppeteerStream

/-- The error message thrown by `assertExtensionLoaded` when the retry
budget is exhausted (line 195 of the source). -/
def readinessErrorMsg : String :=
  "Could not find START_RECORDING function in the browser context"

/-- The error message thrown by `getStream` when neither audio nor video is
requested (line 151 of the source). -/
def configErrorMsg : String := "At least audio or video must be true"

/-- The loop body of `assertExtensionLoaded` (lines 190-194): with
`remaining` iterations of the retry budget left and loop counter
`currentTick`, probe; on success return, otherwise wait `each ^ currentTick`
time units and continue.  Returns the outcome, the number of probe
invocations performed, and the list of wait durations in order. -/
def assertLoop (probe : Nat → Bool) (each : Nat) :
    Nat → Nat → (Except String Unit) × Nat × List Nat
  | 0, _ => (.error readinessErrorMsg, 0, [])
  | remaining + 1, currentTick =>
    if probe currentTick then (.ok (), 1, [])
    else
      match assertLoop probe each remaining (currentTick + 1) with
      | (res, cnt, ws) => (res, cnt + 1, each ^ currentTick :: ws)

/-- The readiness gate `assertExtensionLoaded` (lines 188-196): probes up to
`times` times, waiting `each ^ k` time units after the k-th failed probe
(k counted from 0), and fails with `readinessErrorMsg` when the budget is
exhausted.  The probe is indexed by the invocation number. -/
def assertExtensionLoaded (probe : Nat → Bool) (each times : Nat) :
    (Except String Unit) × Nat × List Nat :=
  assertLoop probe each times 0

/-- State of one `PuppeteerReadableStream` bridge instance.  `tcpSockets`
holds the identifiers of accepted connections in registration order,
`endedSockets` the ones on which `socket.end()` has been called,
`serverListening` whether the TCP listener is bound, `destroyed` whether
`super.destroy()` has run on the underlying Readable, `pendingDestroys` how
many `destroy()` calls are currently suspended awaiting `onDestroy`,
`onDestroyCalls` how many times the producer-stop callback has been
invoked, and `output` the flat byte sequence pushed to the consumer. -/
structure PuppeteerReadableStream where
  port : Nat
  highWaterMark : Nat
  flowing : Bool
  tcpSockets : List Nat
  endedSockets : List Nat
  serverListening : Bool
  destroyed : Bool
  pendingDestroys : Nat
  onDestroyCalls : Nat
  output : List Nat
deriving Repr, DecidableEq

/-- The constructor (lines 203-220): no sockets yet, listener bound at
`port`, high-water mark `1024 * 1024 * highWaterMarkMB`, flowing iff
`immediateResume`. -/
def mkStream (port highWaterMarkMB : Nat) (immediateResume : Bool) :
    PuppeteerReadableStream :=
  { port := port
    highWaterMark := 1024 * 1024 * highWaterMarkMB
    flowing := immediateResume
    tcpSockets := []
    endedSockets := []
    serverListening := true
    destroyed := false
    pendingDestroys := 0
    onDestroyCalls := 0
    output := [] }

/-- Events a bridge instance reacts to.  `destroyInvoke` is the synchronous
prefix of `destroy()` (the call into `onDestroy`, line 226); the awaited
promise later settles as `destroyComplete resolved`: if it resolved, phase 2
runs (end sockets, close server, `super.destroy()`, lines 228-231); if it
rejected, the rejection propagates out of `destroy()` and phase 2 is
skipped. -/
inductive BridgeEvent where
  | connect (sid : Nat)
  | data (sid : Nat) (chunk : List Nat)
  | destroyInvoke
  | destroyComplete (resolved : Bool)
deriving Repr, DecidableEq

/-- One transition of the bridge state machine.
  - `connect`: the listener accepts a connection only while bound; the
    connection callback pushes the socket onto `tcpSockets` (line 210).
  - `data`: the data handler of a registered socket calls `this.push(data)`
    (lines 212-214); a push on a destroyed Readable discards the chunk, so
    the chunk reaches `output` only while not destroyed.
  - `destroyInvoke`: `destroy()` invokes `onDestroy` unconditionally
    (line 226) and suspends on the await.
  - `destroyComplete`: the awaited promise settles; on resolution every
    registered socket is ended, the listener is closed and the Readable is
    destroyed (lines 228-231); on rejection nothing further happens in
    this call. -/
def step (s : PuppeteerReadableStream) (e : BridgeEvent) : PuppeteerReadableStream :=
  match e with
  | .connect sid =>
    if s.serverListening then { s with tcpSockets := s.tcpSockets ++ [sid] } else s
  | .data sid chunk =>
    if s.tcpSockets.contains sid && !s.destroyed then
      { s with output := s.output ++ chunk }
    else s
  | .destroyInvoke =>
    { s with onDestroyCalls := s.onDestroyCalls + 1
             pendingDestroys := s.pendingDestroys + 1 }
  | .destroyComplete resolved =>
    if s.pendingDestroys = 0 then s
    else if resolved then
      { s with pendingDestroys := s.pendingDestroys - 1
               endedSockets := s.tcpSockets
               serverListening := false
               destroyed := true }
    else { s with pendingDestroys := s.pendingDestroys - 1 }

/-- Folding a list of events through `step`. -/
def steps (s : PuppeteerReadableStream) : List BridgeEvent → PuppeteerReadableStream
  | [] => s
  | e :: es => steps (step s e) es

/-- The whole `destroy()` call (lines 225-233) run to completion with no
interleaved events: `onDestroyErr = none` models `onDestroy` resolving,
`some msg` models it rejecting with `msg`.  Returns the resulting bridge
state and the error propagated out of `destroy()`, if any. -/
def PuppeteerReadableStream.destroy (onDestroyErr : Option String)
    (s : PuppeteerReadableStream) : PuppeteerReadableStream × Option String :=
  let s1 := step s .destroyInvoke
  match onDestroyErr with
  | some e => (step s1 (.destroyComplete false), some e)
  | none => (step s1 (.destroyComplete true), none)

/-- A bridge is CLOSED when a destroy has fully completed: the Readable is
destroyed, the listener is closed and every registered socket was ended. -/
def PuppeteerReadableStream.closed (s : PuppeteerReadableStream) : Prop :=
  s.destroyed = true ∧ s.serverListening = false ∧ s.endedSockets = s.tcpSockets

instance (s : PuppeteerReadableStream) : Decidable s.closed := by
  unfold PuppeteerReadableStream.closed; infer_instance

/-- The caller-supplied options of `getStream` (the fields of
`getStreamOptions` relevant to the modelled behaviour; `none` is
`undefined`). -/
structure getStreamOptions where
  audio : Bool
  video : Bool
  mimeType : Option String
  frameSize : Option Nat
  audioBitsPerSecond : Option Nat
  videoBitsPerSecond : Option Nat
  bitsPerSecond : Option Nat
  delay : Option Nat
  retryEach : Option Nat
  retryTimes : Option Nat
  basePort : Option Nat
  highWaterMarkMB : Option Nat
  immediateResume : Option Bool
deriving Repr, DecidableEq

/-- The in-place defaulting performed on the options object by `getStream`
(lines 152-156): a falsy `mimeType` is replaced by `"video/webm"` when
video is requested, otherwise by `"audio/webm"` when audio is requested;
a falsy `frameSize` is replaced by 20. -/
def fillDefaults (o : getStreamOptions) : getStreamOptions :=
  let o1 :=
    if o.mimeType.getD "" = "" then
      if o.video then { o with mimeType := some "video/webm" }
      else if o.audio then { o with mimeType := some "audio/webm" }
      else o
    else o
  if o1.frameSize.getD 0 = 0 then { o1 with frameSize := some 20 } else o1

/-- A successfully created session: the allocated index, the resolved base
port, the derived port `basePort + index`, the (mutated) options and the
constructed bridge. -/
structure Session where
  index : Nat
  basePort : Nat
  port : Nat
  opts : getStreamOptions
  stream : PuppeteerReadableStream
deriving Repr, DecidableEq

/-- Everything observable about one `getStream` call: its result, the value
of the module-level `currentIndex` counter afterwards, the options object as
the caller sees it after the call, every bridge instance constructed during
the call (returned or leaked), the number of `START_RECORDING` control
calls issued, and the number of readiness probes performed. -/
structure GetStreamOutcome where
  result : Except String Session
  currentIndex : Nat
  optsAfter : getStreamOptions
  streamsCreated : List PuppeteerReadableStream
  startRecordingCalls : Nat
  probeCalls : Nat

/-- Resolution of the base port (line 161): `opts.transmission?.basePort || 55200`,
where `||` falls through on a falsy (absent or zero) value. -/
def resolvedBasePort (o : getStreamOptions) : Nat :=
  if o.basePort.getD 0 = 0 then 55200 else o.basePort.getD 0

/-- Resolution of the high-water mark in MB (line 162):
`opts.streamConfig?.highWaterMarkMB || 8`. -/
def resolvedHighWaterMarkMB (o : getStreamOptions) : Nat :=
  if o.highWaterMarkMB.getD 0 = 0 then 8 else o.highWaterMarkMB.getD 0

/-- The `getStream` call (lines 150-186), threading the module-level
`currentIndex` explicitly.  `extensionOk` models whether
`getExtensionPage` succeeds; `probe` models the value of
`typeof START_RECORDING === "function"` at each readiness probe.  Control
flow follows the source: configuration check, in-place defaulting, retry
policy resolution, extension page lookup, base-port / stream-config
resolution, index allocation (`currentIndex++`), bridge construction (the
TCP listener binds in the constructor), readiness gate, and only then the
`START_RECORDING` control call. -/
def getStream (extensionOk : Bool) (probe : Nat → Bool) (i : Nat)
    (o : getStreamOptions) : GetStreamOutcome :=
  if !o.audio && !o.video then
    ⟨.error configErrorMsg, i, o, [], 0, 0⟩
  else
    let o := fillDefaults o
    let each := o.retryEach.getD 20
    let times := o.retryTimes.getD 3
    if !extensionOk then
      ⟨.error "cannot load extension", i, o, [], 0, 0⟩
    else
      let basePort := resolvedBasePort o
      let hwm := resolvedHighWaterMarkMB o
      let immediateResume := o.immediateResume.getD true
      let index := i
      let port := basePort + index
      let stream := mkStream port hwm immediateResume
      match assertExtensionLoaded probe each times with
      | (.error e, probes, _) => ⟨.error e, i + 1, o, [stream], 0, probes⟩
      | (.ok _, probes, _) =>
        ⟨.ok ⟨index, basePort, port, o, stream⟩, i + 1, o, [stream], 1, probes⟩

/-- A sequence of `getStream` calls sharing the module-level
`currentIndex`, in program order: returns the list of outcomes and the
final counter value. -/
def runGetStreams (extensionOk : Bool) (probe : Nat → Bool) (i : Nat) :
    List getStreamOptions → List GetStreamOutcome × Nat
  | [] => ([], i)
  | o :: rest =>
    let out := getStream extensionOk probe i o
    let (outs, f) := runGetStreams extensionOk probe out.currentIndex rest
    (out :: outs, f)

/-! Concrete fixtures used by witnesses and counterexamples. -/

/-- A default audio-only options object: `{ audio: true, video: false }`
with every optional field absent. -/
def defOpts : getStreamOptions :=
  ⟨true, false, none, none, none, none, none, none, none, none, none, none, none⟩

/-- `{ audio: false, video: false }` with every optional field absent. -/
def noMediaOpts : getStreamOptions :=
  ⟨false, false, none, none, none, none, none, none, none, none, none, none, none⟩

/-- Audio-only options selecting base port 55201. -/
def optsBase55201 : getStreamOptions := { defOpts with basePort := some 55201 }

/-- Audio-only options selecting base port 55200. -/
def optsBase55200 : getStreamOptions := { defOpts with basePort := some 55200 }

/-- A probe that never sees `START_RECORDING` defined. -/
def alwaysFalseProbe : Nat → Bool := fun _ => false

/-- A freshly constructed bridge on port 55200 with one accepted
connection (socket id 0). -/
def liveBridge : PuppeteerReadableStream :=
  step (mkStream 55200 8 true) (.connect 0)

/-- `liveBridge` after one fully completed `destroy()` whose `onDestroy`
resolved. -/
def closedBridge : PuppeteerReadableStream := (liveBridge.destroy none).1

/-! Helper lemmas shared between claim theorems. -/

/-- The gate performs at most `remaining` probes from any loop position. -/
theorem assertLoop_probes_le (probe : Nat → Bool) (each : Nat) :
    ∀ n t, (assertLoop probe each n t).2.1 ≤ n := by
  intro n
  induction n with
  | zero => intro t; simp [assertLoop]
  | succ k ih =>
    intro t
    rw [assertLoop]
    split
    · simp
    · have hk := ih (t + 1)
      rcases h : assertLoop probe each k (t + 1) with ⟨res, cnt, ws⟩
      rw [h] at hk
      simp only [h]
      simp at hk ⊢
      omega

/-! Claim theorems. -/

/-- Claim C6: with `each = 20`, `times = 3` and a probe that is false on its
first two invocations and true on the third, the readiness gate succeeds
after waits of exactly `20 ^ 0 = 1` and `20 ^ 1 = 20` time units (two waits
in total) and performs exactly 3 probe invocations; moreover with
`times = 3` no probe function is ever probed more than 3 times. -/
theorem c6_gate_success_after_two_waits :
    assertExtensionLoaded (fun n => decide (2 ≤ n)) 20 3 = (.ok (), 3, [1, 20]) ∧
    ∀ probe : Nat → Bool, (assertExtensionLoaded probe 20 3).2.1 ≤ 3 := by
  constructor
  · rfl
  · intro probe
    exact assertLoop_probes_le probe 20 3 0

/-- Claim C7: with a probe that always returns false and `times = 3`, the
readiness gate fails with the readiness-timeout error after exactly 3 probe
invocations; the error message names the missing `START_RECORDING`
capability; and the corresponding `getStream` call never issues a
`START_RECORDING` control call. -/
theorem c7_gate_timeout_after_three_probes :
    assertExtensionLoaded alwaysFalseProbe 20 3 =
      (.error readinessErrorMsg, 3, [1, 20, 400]) ∧
    (∃ pre suf : String, pre ++ "START_RECORDING" ++ suf = readinessErrorMsg) ∧
    (getStream true alwaysFalseProbe 0 defOpts).startRecordingCalls = 0 := by
  refine ⟨rfl, ⟨"Could not find ", " function in the browser context", rfl⟩, rfl⟩

/-- Claim C8: a configuration with `audio = false` and `video = false` is
rejected with the configuration error before any allocation: the shared
`currentIndex` counter is unchanged, no bridge (hence no listener) is
constructed, no `START_RECORDING` call is issued and no readiness probe is
performed. -/
theorem c8_config_rejected_before_allocation (ext : Bool) (probe : Nat → Bool)
    (i : Nat) (o : getStreamOptions) (ha : o.audio = false) (hv : o.video = false) :
    (getStream ext probe i o).result = .error configErrorMsg ∧
    (getStream ext probe i o).currentIndex = i ∧
    (getStream ext probe i o).streamsCreated = [] ∧
    (getStream ext probe i o).startRecordingCalls = 0 ∧
    (getStream ext probe i o).probeCalls = 0 := by
  simp [getStream, ha, hv]

/-- Witness for C8 at a concrete rejected configuration. -/
theorem c8_witness :
    (getStream true (fun _ => true) 5 noMediaOpts).result = .error configErrorMsg ∧
    (getStream true (fun _ => true) 5 noMediaOpts).currentIndex = 5 ∧
    (getStream true (fun _ => true) 5 noMediaOpts).streamsCreated = [] ∧
    (getStream true (fun _ => true) 5 noMediaOpts).startRecordingCalls = 0 ∧
    (getStream true (fun _ => true) 5 noMediaOpts).probeCalls = 0 :=
  c8_config_rejected_before_allocation true (fun _ => true) 5 noMediaOpts rfl rfl

/-- Claim C9: on a live (not destroyed) bridge, three chunks delivered on a
registered socket are appended to the output in receipt order, so the
consumer observes exactly the concatenation `b1 ++ b2 ++ b3` appended,
independently of the chunk boundaries; no chunk is dropped. -/
theorem c9_chunks_concatenated (s : PuppeteerReadableStream) (sid : Nat)
    (b1 b2 b3 : List Nat) (hs : sid ∈ s.tcpSockets)
    (hd : s.destroyed = false) :
    (steps s [.data sid b1, .data sid b2, .data sid b3]).output =
      s.output ++ (b1 ++ b2 ++ b3) := by
  simp [steps, step, hs, hd]

/-- Witness for C9 on a concrete bridge and chunks. -/
theorem c9_witness :
    (steps liveBridge [.data 0 [1, 2], .data 0 [3], .data 0 [4, 5]]).output =
      liveBridge.output ++ ([1, 2] ++ [3] ++ [4, 5]) :=
  c9_chunks_concatenated liveBridge 0 [1, 2] [3] [4, 5] (by decide) rfl

/-- Counterexample to claim C1: on a bridge with one registered socket, a
`destroy()` whose `onDestroy` rejects propagates the rejection, and the
listener is still bound and the socket not ended afterwards — phase-2
cleanup did not run. -/
theorem c1_counterexample :
    liveBridge.tcpSockets = [0] ∧
    (liveBridge.destroy (some "stop failed")).2 = some "stop failed" ∧
    (liveBridge.destroy (some "stop failed")).1.serverListening = true ∧
    (liveBridge.destroy (some "stop failed")).1.endedSockets = [] ∧
    (liveBridge.destroy (some "stop failed")).1.destroyed = false :=
  ⟨rfl, rfl, rfl, rfl, rfl⟩

/-- Claim C1 as amended: when `onDestroy` resolves, `destroy()` ends every
registered socket, closes the listener, destroys the Readable and returns
without error; when `onDestroy` rejects, the rejection propagates out of
`destroy()` and the sockets, listener and Readable are left exactly as they
were — phase-2 cleanup is skipped, not merely surfaced. -/
theorem c1_destroy_phase2 (s : PuppeteerReadableStream) (e : String) :
    ((s.destroy none).1.endedSockets = s.tcpSockets ∧
     (s.destroy none).1.serverListening = false ∧
     (s.destroy none).1.destroyed = true ∧
     (s.destroy none).2 = none) ∧
    ((s.destroy (some e)).1.endedSockets = s.endedSockets ∧
     (s.destroy (some e)).1.serverListening = s.serverListening ∧
     (s.destroy (some e)).1.destroyed = s.destroyed ∧
     (s.destroy (some e)).1.output = s.output ∧
     (s.destroy (some e)).1.onDestroyCalls = s.onDestroyCalls + 1 ∧
     (s.destroy (some e)).2 = some e) := by
  simp [PuppeteerReadableStream.destroy, step]

/-- Counterexample to claim C3: `closedBridge` is a fully destroyed
(CLOSED) bridge on which the producer-stop callback has been invoked once;
calling `destroy()` on it again invokes the producer-stop callback a second
time, so the second call is not a no-op towards the control channel. -/
theorem c3_counterexample :
    closedBridge.destroyed = true ∧
    closedBridge.serverListening = false ∧
    closedBridge.onDestroyCalls = 1 ∧
    (closedBridge.destroy none).1.onDestroyCalls = 2 :=
  ⟨rfl, rfl, rfl, rfl⟩

/-- Claim C3 as amended: a second `destroy()` on a CLOSED bridge raises no
error and leaves the whole transport state unchanged — sockets, ended
sockets, listener, destroyed flag, pending count and output — but it does
invoke the producer-stop callback one further time. -/
theorem c3_second_destroy_not_guarded (s : PuppeteerReadableStream)
    (hc : s.closed) :
    (s.destroy none).2 = none ∧
    (s.destroy none).1.onDestroyCalls = s.onDestroyCalls + 1 ∧
    (s.destroy none).1.tcpSockets = s.tcpSockets ∧
    (s.destroy none).1.endedSockets = s.endedSockets ∧
    (s.destroy none).1.serverListening = s.serverListening ∧
    (s.destroy none).1.destroyed = s.destroyed ∧
    (s.destroy none).1.pendingDestroys = s.pendingDestroys ∧
    (s.destroy none).1.output = s.output ∧
    (s.destroy none).1.port = s.port := by
  obtain ⟨hd, hl, he⟩ := hc
  simp [PuppeteerReadableStream.destroy, step, hd, hl, he]

/-- Witness for C3 as amended, at the concrete CLOSED bridge. -/
theorem c3_witness :
    (closedBridge.destroy none).2 = none ∧
    (closedBridge.destroy none).1.onDestroyCalls = closedBridge.onDestroyCalls + 1 ∧
    (closedBridge.destroy none).1.tcpSockets = closedBridge.tcpSockets ∧
    (closedBridge.destroy none).1.endedSockets = closedBridge.endedSockets ∧
    (closedBridge.destroy none).1.serverListening = closedBridge.serverListening ∧
    (closedBridge.destroy none).1.destroyed = closedBridge.destroyed ∧
    (closedBridge.destroy none).1.pendingDestroys = closedBridge.pendingDestroys ∧
    (closedBridge.destroy none).1.output = closedBridge.output ∧
    (closedBridge.destroy none).1.port = closedBridge.port :=
  c3_second_destroy_not_guarded closedBridge (by decide)

/-- Counterexample to claim C4: after `destroy()` has been invoked but
while it is still awaiting `onDestroy`, a chunk arriving on a registered
socket is appended to the output and a new connection is accepted. -/
theorem c4_counterexample :
    liveBridge.output = [] ∧
    (steps liveBridge [.destroyInvoke, .data 0 [7], .connect 1]).output = [7] ∧
    (steps liveBridge [.destroyInvoke, .data 0 [7], .connect 1]).tcpSockets =
      [0, 1] :=
  ⟨rfl, rfl, rfl⟩

/-- One step from a destroyed-and-closed bridge changes neither the output
nor the accepted-socket list, and the bridge stays destroyed and closed. -/
theorem step_closed_frozen (s : PuppeteerReadableStream) (e : BridgeEvent)
    (hd : s.destroyed = true) (hl : s.serverListening = false) :
    (step s e).output = s.output ∧ (step s e).tcpSockets = s.tcpSockets ∧
    (step s e).destroyed = true ∧ (step s e).serverListening = false := by
  cases e with
  | connect sid => simp [step, hd, hl]
  | data sid chunk => simp [step, hd, hl]
  | destroyInvoke => simp [step, hd, hl]
  | destroyComplete resolved =>
    by_cases hp : s.pendingDestroys = 0
    · simp [step, hp, hd, hl]
    · cases resolved <;> simp [step, hp, hd, hl]

/-- Claim C4 as amended: once a `destroy()` call has fully completed (the
Readable is destroyed and the listener closed), no later event — arriving
data on a still-registered socket, a connection attempt, or further destroy
activity — ever changes the output sequence or the set of accepted
sockets. -/
theorem c4_closed_never_forwards (es : List BridgeEvent)
    (s : PuppeteerReadableStream) (hd : s.destroyed = true)
    (hl : s.serverListening = false) :
    (steps s es).output = s.output ∧ (steps s es).tcpSockets = s.tcpSockets := by
  induction es generalizing s with
  | nil => exact ⟨rfl, rfl⟩
  | cons e es ih =>
    obtain ⟨h1, h2, h3, h4⟩ := step_closed_frozen s e hd hl
    obtain ⟨ih1, ih2⟩ := ih (step s e) h3 h4
    exact ⟨ih1.trans h1, ih2.trans h2⟩

/-- Witness for C4 as amended, at the concrete CLOSED bridge and a trace
containing a data chunk and a connection attempt. -/
theorem c4_witness :
    (steps closedBridge [.data 0 [9], .connect 5]).output = closedBridge.output ∧
    (steps closedBridge [.data 0 [9], .connect 5]).tcpSockets =
      closedBridge.tcpSockets :=
  c4_closed_never_forwards [.data 0 [9], .connect 5] closedBridge rfl rfl

/-- Unfolding of `runGetStreams` on a non-empty call list. -/
theorem runGetStreams_cons (ext : Bool) (probe : Nat → Bool) (i : Nat)
    (o : getStreamOptions) (rest : List getStreamOptions) :
    runGetStreams ext probe i (o :: rest) =
      (getStream ext probe i o ::
        (runGetStreams ext probe (getStream ext probe i o).currentIndex rest).1,
       (runGetStreams ext probe (getStream ext probe i o).currentIndex rest).2) :=
  rfl

/-- Characterization of one `getStream` call: a successful call returns a
session whose index is the counter value at entry, whose port is
`basePort + index`, and bumps the counter by one; and the counter never
decreases. -/
theorem getStream_spec (ext : Bool) (probe : Nat → Bool) (i : Nat)
    (o : getStreamOptions) :
    (∀ s, (getStream ext probe i o).result = .ok s →
      s.index = i ∧ s.basePort = resolvedBasePort (fillDefaults o) ∧
      s.port = s.basePort + i ∧
      (getStream ext probe i o).currentIndex = i + 1) ∧
    i ≤ (getStream ext probe i o).currentIndex := by
  simp only [getStream]
  split
  · refine ⟨fun s hs => by simp at hs, by simp⟩
  · split
    · refine ⟨fun s hs => by simp at hs, by simp⟩
    · rcases hA : assertExtensionLoaded probe ((fillDefaults o).retryEach.getD 20)
        ((fillDefaults o).retryTimes.getD 3) with ⟨res, cnt, ws⟩
      cases res with
      | error e => simp [hA]
      | ok u =>
        simp only [hA]
        refine ⟨fun s hs => ?_, by simp⟩
        simp only [Except.ok.injEq] at hs
        subst hs
        simp

/-- Every session created in a run starting from counter value `i` receives
an index at least `i`. -/
theorem runGetStreams_index_lb (ext : Bool) (probe : Nat → Bool) :
    ∀ (os : List getStreamOptions) (i : Nat) (out : GetStreamOutcome),
      out ∈ (runGetStreams ext probe i os).1 →
      ∀ s, out.result = .ok s → i ≤ s.index := by
  intro os
  induction os with
  | nil => intro i out h; simp [runGetStreams] at h
  | cons o rest ih =>
    intro i out hmem s hs
    rw [runGetStreams_cons] at hmem
    rcases List.mem_cons.mp hmem with h1 | h2
    · subst h1
      have h := (getStream_spec ext probe i o).1 s hs
      omega
    · have hub := (getStream_spec ext probe i o).2
      have hlb := ih (getStream ext probe i o).currentIndex out h2 s hs
      omega

/-- Claim C5 as amended: across any sequence of `getStream` calls sharing
the process-wide counter, every successful session satisfies
`port = basePort + index`; the indices of sessions, in creation order, are
strictly increasing (hence distinct); and two sessions whose resolved base
ports agree never receive the same port.  (Sessions created with different
`transmission.basePort` values can still collide, see the
counterexample.) -/
theorem c5_indices_monotone_ports_formula (ext : Bool) (probe : Nat → Bool) :
    ∀ (os : List getStreamOptions) (i : Nat),
      List.Pairwise
        (fun a b => ∀ sa sb, a.result = .ok sa → b.result = .ok sb →
          sa.index < sb.index ∧ (sa.basePort = sb.basePort → sa.port ≠ sb.port))
        (runGetStreams ext probe i os).1 ∧
      (∀ out ∈ (runGetStreams ext probe i os).1, ∀ s, out.result = .ok s →
        s.port = s.basePort + s.index) := by
  intro os
  induction os with
  | nil =>
    intro i
    refine ⟨by simp [runGetStreams], ?_⟩
    intro out h
    simp [runGetStreams] at h
  | cons o rest ih =>
    intro i
    rw [runGetStreams_cons]
    refine ⟨List.Pairwise.cons ?_ (ih _).1, ?_⟩
    · intro b hb sa sb hsa hsb
      have ha := (getStream_spec ext probe i o).1 sa hsa
      have hbp : sb.port = sb.basePort + sb.index := (ih _).2 b hb sb hsb
      have hbl : (getStream ext probe i o).currentIndex ≤ sb.index :=
        runGetStreams_index_lb ext probe rest _ b hb sb hsb
      constructor
      · omega
      · intro hbase
        omega
    · intro out hout s hs
      rcases List.mem_cons.mp hout with h1 | h2
      · subst h1
        have h := (getStream_spec ext probe i o).1 s hs
        omega
      · exact (ih _).2 out h2 s hs

/-- Counterexample to claim C5: two back-to-back successful creations, the
first with `transmission.basePort = 55201` and the second with
`transmission.basePort = 55200`, receive distinct indices 0 and 1 but the
very same port 55201. -/
theorem c5_counterexample :
    ((runGetStreams true (fun _ => true) 0 [optsBase55201, optsBase55200]).1.map
      fun out =>
        match out.result with
        | .ok s => some (s.index, s.port)
        | .error _ => none) = [some (0, 55201), some (1, 55201)] :=
  rfl

/-- Witness for C5 as amended, instantiated at a concrete run of two calls
sharing base port 55200. -/
theorem c5_witness :
    List.Pairwise
      (fun a b => ∀ sa sb, a.result = .ok sa → b.result = .ok sb →
        sa.index < sb.index ∧ (sa.basePort = sb.basePort → sa.port ≠ sb.port))
      (runGetStreams true (fun _ => true) 0 [optsBase55200, optsBase55200]).1 ∧
    (∀ out ∈ (runGetStreams true (fun _ => true) 0
        [optsBase55200, optsBase55200]).1,
      ∀ s, out.result = .ok s → s.port = s.basePort + s.index) :=
  c5_indices_monotone_ports_formula true (fun _ => true)
    [optsBase55200, optsBase55200] 0

/-- Counterexample to claim C2: with a probe that never succeeds,
`getStream` rejects with the readiness error, yet the bridge constructed
before the gate ran is left with its TCP listener still bound to the
session port 55200 (and the session counter was consumed). -/
theorem c2_counterexample :
    (getStream true alwaysFalseProbe 0 optsBase55200).result =
      .error readinessErrorMsg ∧
    ((getStream true alwaysFalseProbe 0 optsBase55200).streamsCreated.map
      fun b => (b.serverListening, b.port)) = [(true, 55200)] ∧
    (getStream true alwaysFalseProbe 0 optsBase55200).currentIndex = 1 :=
  ⟨rfl, rfl, rfl⟩

/-- Claim C2 as amended: whenever the readiness gate exhausts its budget,
`getStream` rejects with the gate error and the session counter is
consumed, but the bridge constructed before the gate — with its TCP
listener bound to `basePort + index` — is leaked, not torn down. -/
theorem c2_readiness_failure_leaks_listener (probe : Nat → Bool) (i : Nat)
    (o : getStreamOptions) (msg : String) (cnt : Nat) (ws : List Nat)
    (hcfg : (!o.audio && !o.video) = false)
    (hgate : assertExtensionLoaded probe ((fillDefaults o).retryEach.getD 20)
        ((fillDefaults o).retryTimes.getD 3) = (.error msg, cnt, ws)) :
    (getStream true probe i o).result = .error msg ∧
    (getStream true probe i o).currentIndex = i + 1 ∧
    ((getStream true probe i o).streamsCreated.map
      fun b => (b.serverListening, b.port)) =
      [(true, resolvedBasePort (fillDefaults o) + i)] := by
  simp [getStream, hcfg, hgate, mkStream]

/-- Witness for C2 as amended, at a concrete option object, counter value 1
and a probe that never succeeds. -/
theorem c2_witness :
    (getStream true alwaysFalseProbe 1 defOpts).result =
      .error readinessErrorMsg ∧
    (getStream true alwaysFalseProbe 1 defOpts).currentIndex = 2 ∧
    ((getStream true alwaysFalseProbe 1 defOpts).streamsCreated.map
      fun b => (b.serverListening, b.port)) =
      [(true, resolvedBasePort (fillDefaults defOpts) + 1)] :=
  c2_readiness_failure_leaks_listener alwaysFalseProbe 1 defOpts
    readinessErrorMsg 3 [1, 20, 400] rfl rfl

/-- `fillDefaults` touches only `mimeType` and `frameSize`: every other
field of the options object is preserved. -/
theorem fillDefaults_preserves_other_fields (o : getStreamOptions) :
    (fillDefaults o).audio = o.audio ∧
    (fillDefaults o).video = o.video ∧
    (fillDefaults o).audioBitsPerSecond = o.audioBitsPerSecond ∧
    (fillDefaults o).videoBitsPerSecond = o.videoBitsPerSecond ∧
    (fillDefaults o).bitsPerSecond = o.bitsPerSecond ∧
    (fillDefaults o).delay = o.delay ∧
    (fillDefaults o).retryEach = o.retryEach ∧
    (fillDefaults o).retryTimes = o.retryTimes ∧
    (fillDefaults o).basePort = o.basePort ∧
    (fillDefaults o).highWaterMarkMB = o.highWaterMarkMB ∧
    (fillDefaults o).immediateResume = o.immediateResume := by
  simp only [fillDefaults]
  repeat' split
  all_goals simp

/-- Claim C10: `getStream` fills defaults by mutating the caller-supplied
options object: under a valid configuration the object seen by the caller
afterwards is exactly `fillDefaults o`; an absent `mimeType` is set to
`"video/webm"` when video is requested and otherwise to `"audio/webm"`
(audio must then be requested); an absent `frameSize` is set to 20; and all
other fields are left unchanged. -/
theorem c10_defaults_mutate_options (ext : Bool) (probe : Nat → Bool)
    (i : Nat) (o : getStreamOptions)
    (hcfg : (!o.audio && !o.video) = false) :
    (getStream ext probe i o).optsAfter = fillDefaults o ∧
    (o.mimeType = none → (fillDefaults o).mimeType =
      (if o.video then some "video/webm" else some "audio/webm")) ∧
    (o.frameSize = none → (fillDefaults o).frameSize = some 20) ∧
    (fillDefaults o).audio = o.audio ∧
    (fillDefaults o).video = o.video ∧
    (fillDefaults o).audioBitsPerSecond = o.audioBitsPerSecond ∧
    (fillDefaults o).videoBitsPerSecond = o.videoBitsPerSecond ∧
    (fillDefaults o).bitsPerSecond = o.bitsPerSecond ∧
    (fillDefaults o).delay = o.delay ∧
    (fillDefaults o).retryEach = o.retryEach ∧
    (fillDefaults o).retryTimes = o.retryTimes ∧
    (fillDefaults o).basePort = o.basePort ∧
    (fillDefaults o).highWaterMarkMB = o.highWaterMarkMB ∧
    (fillDefaults o).immediateResume = o.immediateResume := by
  obtain ⟨h1, h2, h3, h4, h5, h6, h7, h8, h9, h10, h11⟩ :=
    fillDefaults_preserves_other_fields o
  refine ⟨?_, ?_, ?_, h1, h2, h3, h4, h5, h6, h7, h8, h9, h10, h11⟩
  · simp only [getStream, hcfg]
    split
    · next hff => exact absurd hff (by simp)
    · rcases hA : assertExtensionLoaded probe ((fillDefaults o).retryEach.getD 20)
        ((fillDefaults o).retryTimes.getD 3) with ⟨res, cnt, ws⟩
      cases res <;> simp only [hA] <;> split <;> rfl
  · intro hm
    have hav : o.audio = true ∨ o.video = true := by
      revert hcfg
      cases o.audio <;> cases o.video <;> simp
    simp only [fillDefaults, hm]
    rcases hv : o.video with _ | _
    all_goals rcases ha : o.audio with _ | _
    all_goals simp_all
    all_goals split <;> simp
  · intro hf
    simp only [fillDefaults]
    split
    all_goals split
    all_goals simp_all

/-- Witness for C10 at the concrete default audio options. -/
theorem c10_witness :
    (getStream true (fun _ => true) 0 defOpts).optsAfter = fillDefaults defOpts ∧
    (defOpts.mimeType = none → (fillDefaults defOpts).mimeType =
      (if defOpts.video then some "video/webm" else some "audio/webm")) ∧
    (defOpts.frameSize = none → (fillDefaults defOpts).frameSize = some 20) ∧
    (fillDefaults defOpts).audio = defOpts.audio ∧
    (fillDefaults defOpts).video = defOpts.video ∧
    (fillDefaults defOpts).audioBitsPerSecond = defOpts.audioBitsPerSecond ∧
    (fillDefaults defOpts).videoBitsPerSecond = defOpts.videoBitsPerSecond ∧
    (fillDefaults defOpts).bitsPerSecond = defOpts.bitsPerSecond ∧
    (fillDefaults defOpts).delay = defOpts.delay ∧
    (fillDefaults defOpts).retryEach = defOpts.retryEach ∧
    (fillDefaults defOpts).retryTimes = defOpts.retryTimes ∧
    (fillDefaults defOpts).basePort = defOpts.basePort ∧
    (fillDefaults defOpts).highWaterMarkMB = defOpts.highWaterMarkMB ∧
    (fillDefaults defOpts).immediateResume = defOpts.immediateResume :=
  c10_defaults_mutate_options true (fun _ => true) 0 defOpts rfl

end PuppeteerStream
